import Mathlib

/-!
Verification of the match-scorer dispatch pipeline: a shallow embedding of
the router lambda, the per-challenge submission-watcher (worker) lambda and
the completion lambda, together with theorems settling the specification
claims about them.  Definitions are translated from the JavaScript sources
in `src/router-lambda/index.js`, `src/submission-watcher-lambda/index.js`
and the completion lambda; external AWS calls (DynamoDB, SNS, SQS, ECS,
SSM, Auth0) are abstracted as environment functions returning `Except`,
and the JSON decode step is abstracted as an environment parse function.
-/

namespace MatchScorer

/-- JavaScript string truthiness for an optional string field: `undefined`,
`null` and the empty string are falsy, every other string is truthy. -/
def jsTruthy : Option String → Option String
  | none => none
  | some s => if s = "" then none else some s

/-- Numeric value of a list of decimal digit characters. -/
def digitsVal (l : List Char) : Nat :=
  l.foldl (fun acc c => acc * 10 + (c.toNat - 48)) 0

/-- Parse the longest leading run of decimal digits, as `parseInt` does;
`none` models the `NaN` result when no digit is found. -/
def parseDigits (l : List Char) : Option Nat :=
  let ds := l.takeWhile Char.isDigit
  if ds.isEmpty then none else some (digitsVal ds)

/-- Strip leading and trailing whitespace from a character list, as the
initial trimming step of `parseInt` does. -/
def trimChars (l : List Char) : List Char :=
  ((l.dropWhile Char.isWhitespace).reverse.dropWhile Char.isWhitespace).reverse

/-- Model of JavaScript `parseInt(s, 10)`: trim whitespace, accept an
optional sign, read the longest leading digit run; `none` models `NaN`. -/
def jsParseInt (s : String) : Option Int :=
  match trimChars s.toList with
  | '-' :: rest => (parseDigits rest).map (fun n => -(n : Int))
  | '+' :: rest => (parseDigits rest).map (fun n => (n : Int))
  | l => (parseDigits l).map (fun n => (n : Int))

/-- Model of `String(n)` applied to a possibly-NaN numeric value. -/
def jsNumToString : Option Int → String
  | some n => toString n
  | none => "NaN"

/-- Model of `x >= m` where `x` may be `NaN` (`none`): `NaN` comparisons
are false in JavaScript. -/
def jsGE (x : Option Int) (m : Int) : Bool :=
  match x with
  | some n => m ≤ n
  | none => false

/-- Model of `x < m` where `x` may be `NaN` (`none`). -/
def jsLT (x : Option Int) (m : Int) : Bool :=
  match x with
  | some n => n < m
  | none => false

/-- Model of `x + 1` where `x` may be `NaN` (`none`): `NaN + 1` is `NaN`. -/
def jsAdd1 (x : Option Int) : Option Int :=
  x.map (· + 1)

/-! ## Router lambda (`src/router-lambda/index.js`) -/

/-- The `payload` object of an inbound Kafka message as read by the router:
`message?.payload?.submissionId` and `message?.payload?.challengeId`.
`none` models an absent field. -/
structure RouterPayload where
  submissionId : Option String
  challengeId : Option String
  deriving Repr, DecidableEq

/-- A parsed Kafka message body; `payload = none` models a JSON value with
no `payload` member. -/
structure RouterMsg where
  payload : Option RouterPayload
  deriving Repr, DecidableEq

/-- The `submissionId` the router extracts from a message. -/
def RouterMsg.submissionId (m : RouterMsg) : Option String :=
  m.payload.bind (·.submissionId)

/-- The `challengeId` the router extracts from a message. -/
def RouterMsg.challengeId (m : RouterMsg) : Option String :=
  m.payload.bind (·.challengeId)

/-- A DynamoDB item of the challenge-mapping table as seen by the router:
`active = some b` models an `active` attribute holding `BOOL b`; `none`
models an absent or non-boolean attribute. -/
structure ChallengeItem where
  active : Option Bool
  deriving Repr, DecidableEq

/-- A Kafka record from the MSK event: topic, partition, offset and the
base64-encoded value. -/
structure KafkaRecord where
  topic : String
  partition : Int
  offset : Int
  value : String
  deriving Repr, DecidableEq

/-- An SNS publish command as built by `publishToSns`: the message body and
the message attributes (name, string value). -/
structure SnsPublish where
  message : RouterMsg
  attrs : List (String × String)
  deriving Repr, DecidableEq

/-- Per-item result of the router: `success = false` requests redelivery of
the item via partial batch failure reporting. -/
structure RouterResult where
  success : Bool
  itemIdentifier : String
  deriving Repr, DecidableEq

/-- Environment of the router lambda: the base64+JSON decode step and the
DynamoDB and SNS clients.  `dynamoGet cid` returns the item for the
challenge (`none` when DynamoDB returns no `Item`) or a transport error;
`snsSend` returns a message id or a transport error. -/
structure RouterEnv where
  parse : String → Except String RouterMsg
  dynamoGet : String → Except String (Option ChallengeItem)
  snsSend : SnsPublish → Except String String

/-- A hexadecimal digit as accepted by the router's `UUID_REGEX` character
class (`[0-9a-f]` with the case-insensitive flag). -/
def isHexChar (c : Char) : Bool :=
  c.isDigit || ('a' ≤ c && c ≤ 'f') || ('A' ≤ c && c ≤ 'F')

/-- Split a character list on the dash separator, keeping empty groups, as
the anchored `UUID_REGEX` alternation does between its hex runs. -/
def splitDash : List Char → List (List Char)
  | [] => [[]]
  | c :: rest =>
    if c = '-' then [] :: splitDash rest
    else
      match splitDash rest with
      | g :: gs => (c :: g) :: gs
      | [] => [[c]]

/-- Check that a string is a canonical 8-4-4-4-12 hexadecimal UUID,
case-insensitive, as the router's anchored `UUID_REGEX` does. -/
def isValidUuid (s : String) : Bool :=
  let parts := splitDash s.toList
  ((parts.map List.length) == [8, 4, 4, 4, 12])
    && parts.all (fun p => p.all isHexChar)

/-- Translation of `isChallengeActive`: look the challenge up in DynamoDB;
a missing item, a missing/non-true `active` attribute, and a lookup error
all yield `false` (the error is caught and logged). -/
def isChallengeActive (env : RouterEnv) (challengeId : String) : Bool :=
  match env.dynamoGet challengeId with
  | .error _ => false
  | .ok none => false
  | .ok (some item) => item.active = some true

/-- Translation of `publishToSns`: build the publish command with the
message body and a single `challengeId` message attribute. -/
def publishToSns (message : RouterMsg) (challengeId : String) : SnsPublish :=
  { message := message, attrs := [("challengeId", challengeId)] }

/-- Translation of the router's `processRecord`.  Returns the per-item
result together with the list of SNS publish commands issued for the item.
A failed decode/parse throws and is caught as `success = false`; missing
or non-UUID ids and inactive/unknown challenges are skipped with
`success = true`; a publish is attempted only for a valid, active message
and an SNS error is caught as `success = false`. -/
def routerProcessRecord (env : RouterEnv) (r : KafkaRecord) :
    RouterResult × List SnsPublish :=
  let itemIdentifier := r.topic ++ "-" ++ toString r.partition ++ "-" ++ toString r.offset
  match env.parse r.value with
  | .error _ => (⟨false, itemIdentifier⟩, [])
  | .ok message =>
    match jsTruthy message.submissionId with
    | none => (⟨true, itemIdentifier⟩, [])
    | some submissionId =>
      match jsTruthy message.challengeId with
      | none => (⟨true, itemIdentifier⟩, [])
      | some challengeId =>
        if !isValidUuid submissionId then (⟨true, itemIdentifier⟩, [])
        else if !isValidUuid challengeId then (⟨true, itemIdentifier⟩, [])
        else if !isChallengeActive env challengeId then (⟨true, itemIdentifier⟩, [])
        else
          let pub := publishToSns message challengeId
          match env.snsSend pub with
          | .ok _ => (⟨true, itemIdentifier⟩, [pub])
          | .error _ => (⟨false, itemIdentifier⟩, [pub])

/-! ## Submission-watcher (worker) lambda
(`src/submission-watcher-lambda/index.js`) -/

/-- The worker's environment-variable configuration: its challenge id and
the retry budget. -/
structure WorkerConfig where
  challengeId : String
  maxRetries : Int
  deriving Repr, DecidableEq

/-- The challenge configuration JSON loaded from SSM; only the `scorers`
array is read (`challengeConfig.scorers || []`), `none` models an absent
member. -/
structure ChallengeConfig where
  scorers : Option (List String)
  deriving Repr, DecidableEq

/-- The `payload` object of a queue message as read by the worker. -/
structure WorkerPayload where
  submissionId : Option String
  challengeId : Option String
  deriving Repr, DecidableEq

/-- A parsed queue message body; `payload = none` models a JSON value with
no `payload` member. -/
structure WorkerMsg where
  payload : Option WorkerPayload
  deriving Repr, DecidableEq

/-- An SQS record delivered to the worker: message id, raw body and the
message attributes as (name, string value) pairs. -/
structure SqsRecord where
  messageId : String
  body : String
  messageAttributes : List (String × String)
  deriving Repr, DecidableEq

/-- An ECS `RunTask` command as built by `launchEcsTask`: the correlation
tags attached to the task plus the scorer configuration and credential
injected as container environment. -/
structure LaunchInput where
  challengeIdTag : String
  submissionIdTag : Option String
  scorerTypeTag : String
  retryCountTag : String
  scorerConfig : String
  accessToken : String
  deriving Repr, DecidableEq

/-- Per-item result of the worker: `success = false` requests redelivery of
the message via partial batch failure reporting. -/
structure WorkerResult where
  success : Bool
  messageId : String
  deriving Repr, DecidableEq

/-- Environment of the worker lambda: JSON body decoding, the SSM config
loads, the Auth0 token fetch and the ECS `RunTask` client (returning the
list of started task ARNs or a transport error). -/
structure WorkerEnv where
  parseBody : String → Except String WorkerMsg
  loadChallengeConfig : Except String ChallengeConfig
  getAccessToken : Except String String
  loadScorerConfig : String → Except String String
  runTask : LaunchInput → Except String (List String)

/-- Translation of `getRetryCount`: read the `RetryCount` message
attribute; an absent attribute or an empty string value yields 0, a
non-empty value is fed to `parseInt` (so `none`, modelling `NaN`, can
result from a non-numeric value). -/
def getRetryCount (r : SqsRecord) : Option Int :=
  match r.messageAttributes.lookup "RetryCount" with
  | some s => if s = "" then some 0 else jsParseInt s
  | none => some 0

/-- Translation of `launchEcsTask`: issue the `RunTask` call; a transport
error propagates, an empty `tasks` array in the response throws
`Failed to start ECS task`, otherwise the first task's ARN is returned. -/
def launchEcsTask (env : WorkerEnv) (li : LaunchInput) : Except String String :=
  match env.runTask li with
  | .error e => .error e
  | .ok [] => .error "Failed to start ECS task"
  | .ok (arn :: _) => .ok arn

/-- The launch loop of the worker's `processRecord`: for each configured
scorer type, load its configuration (a load error aborts the loop, flag
`false`) and issue one `launchEcsTask` call, collecting each issued launch
together with its outcome. -/
def workerLaunchLoop (env : WorkerEnv) (cfg : WorkerConfig)
    (submissionId : Option String) (retryCountTag : String) (accessToken : String) :
    List String → List (LaunchInput × Except String String) × Bool
  | [] => ([], true)
  | scorerType :: rest =>
    match env.loadScorerConfig scorerType with
    | .error _ => ([], false)
    | .ok scorerConfig =>
      let li : LaunchInput :=
        { challengeIdTag := cfg.challengeId
          submissionIdTag := submissionId
          scorerTypeTag := scorerType
          retryCountTag := retryCountTag
          scorerConfig := scorerConfig
          accessToken := accessToken }
      let res := launchEcsTask env li
      let (trace, completed) :=
        workerLaunchLoop env cfg submissionId retryCountTag accessToken rest
      ((li, res) :: trace, completed)

/-- Translation of the worker's `processRecord`.  Returns the per-item
result together with the trace of ECS launches issued (with their
outcomes).  A body parse error, a config/token load error, or total launch
failure yields `success = false`; a misrouted challenge id, an exhausted
retry budget, an empty scorer list, and at least one successful launch all
yield `success = true`. -/
def workerProcessRecord (env : WorkerEnv) (cfg : WorkerConfig) (r : SqsRecord) :
    WorkerResult × List (LaunchInput × Except String String) :=
  match env.parseBody r.body with
  | .error _ => (⟨false, r.messageId⟩, [])
  | .ok message =>
    let submissionId := message.payload.bind (·.submissionId)
    let challengeId := message.payload.bind (·.challengeId)
    let retryCount := getRetryCount r
    if challengeId ≠ some cfg.challengeId then (⟨true, r.messageId⟩, [])
    else if jsGE retryCount cfg.maxRetries then (⟨true, r.messageId⟩, [])
    else
      match env.loadChallengeConfig with
      | .error _ => (⟨false, r.messageId⟩, [])
      | .ok challengeConfig =>
        match env.getAccessToken with
        | .error _ => (⟨false, r.messageId⟩, [])
        | .ok accessToken =>
          let scorers := challengeConfig.scorers.getD []
          if scorers.isEmpty then (⟨true, r.messageId⟩, [])
          else
            let (trace, completed) :=
              workerLaunchLoop env cfg submissionId (jsNumToString retryCount)
                accessToken scorers
            if !completed then (⟨false, r.messageId⟩, trace)
            else
              let failures := trace.filter (fun p => !(p.2.toOption.isSome))
              if 0 < failures.length ∧ failures.length = trace.length then
                (⟨false, r.messageId⟩, trace)
              else (⟨true, r.messageId⟩, trace)

/-! ## Completion lambda (the EventBridge ECS task-state-change handler) -/

/-- An ECS task tag object `{key, value}`; `none` fields model absent
members. -/
structure Tag where
  key : Option String
  value : Option String
  deriving Repr, DecidableEq

/-- A container entry of the task detail; only `exitCode` is consulted for
success classification, `none` models an absent exit code. -/
structure Container where
  exitCode : Option Int
  deriving Repr, DecidableEq

/-- The `detail` of an ECS Task State Change event as read by the
completion lambda.  `tags = none` models a missing or non-array `tags`
member; a `none` entry inside the list models a `null` array element
(reading `.key` on it throws). -/
structure CompletionDetail where
  containers : Option (List Container)
  tags : Option (List (Option Tag))
  deriving Repr, DecidableEq

/-- An EventBridge event; `detail = none` models a missing `detail`. -/
structure CompletionEvent where
  detail : Option CompletionDetail
  deriving Repr, DecidableEq

/-- A DynamoDB item of the challenge-mapping table as seen by the
completion lambda: the outer `Option` models presence of the `queueUrl`
attribute, the inner one presence of its `S` string value. -/
structure QueueItem where
  queueUrl : Option (Option String)
  deriving Repr, DecidableEq

/-- An SQS `SendMessage` command as built by `sendRetryMessage`: the retry
payload, the incremented retry count carried in the body's `retryInfo` and
in the `RetryCount` message attribute, and the target queue URL. -/
structure RetryMessage where
  queueUrl : String
  challengeId : String
  submissionId : String
  scorerType : String
  retryCount : Option Int
  attrRetryCount : String
  attrScorerType : String
  deriving Repr, DecidableEq

/-- The handler's HTTP-style response; the optional fields mirror the JSON
body (`none` on the 500 error body, which carries no such fields). -/
structure CompletionResponse where
  statusCode : Int
  success : Option Bool
  challengeId : Option String
  submissionId : Option String
  retryQueued : Option Bool
  deriving Repr, DecidableEq

/-- Environment of the completion lambda: the retry budget, the optional
challenge-mapping table name, and the DynamoDB and SQS clients. -/
structure CompletionEnv where
  maxRetries : Int
  challengeMappingTable : Option String
  dynamoGet : String → Except String (Option QueueItem)
  sqsSend : RetryMessage → Except String Unit

/-- Accumulator loop of `extractTags`: tag entries with truthy `key` and
`value` are written into the accumulator (newest first, so a `lookup`
models the last-write-wins object assignment); a `null` entry throws. -/
def extractTagsGo : List (String × String) → List (Option Tag) →
    Except String (List (String × String))
  | acc, [] => .ok acc
  | _, none :: _ => .error "TypeError"
  | acc, some t :: rest =>
    match jsTruthy t.key, jsTruthy t.value with
    | some k, some v => extractTagsGo ((k, v) :: acc) rest
    | _, _ => extractTagsGo acc rest

/-- Translation of `extractTags`: a missing/non-array `tags` value yields
the empty map, otherwise the entries are folded into a key-value map. -/
def extractTags : Option (List (Option Tag)) → Except String (List (String × String))
  | none => .ok []
  | some entries => extractTagsGo [] entries

/-- Translation of `isTaskSuccessful`: the task succeeded iff the container
list (`detail.containers || []`) is non-empty and every container's
`exitCode` is exactly 0. -/
def isTaskSuccessful (detail : CompletionDetail) : Bool :=
  let containers := detail.containers.getD []
  if containers.isEmpty then false
  else containers.all (fun c => c.exitCode == some 0)

/-- Translation of `getQueueUrl`: with no table configured or on a caught
lookup error, a missing item or a missing `queueUrl` attribute, yield
`none`; otherwise yield the attribute's `S` value (possibly absent). -/
def getQueueUrl (env : CompletionEnv) (challengeId : String) : Option String :=
  match env.challengeMappingTable with
  | none => none
  | some _ =>
    match env.dynamoGet challengeId with
    | .error _ => none
    | .ok none => none
    | .ok (some item) =>
      match item.queueUrl with
      | none => none
      | some sValue => sValue

/-- Translation of `sendRetryMessage`: increment the retry count; at or
above the budget, send nothing and return `false`; otherwise issue exactly
one `SendMessage` with the incremented count (in body and attribute),
returning `false` if the send throws.  The returned list is the trace of
`SendMessage` commands issued. -/
def sendRetryMessage (env : CompletionEnv) (queueUrl challengeId submissionId
    scorerType : String) (retryCount : Option Int) : Bool × List RetryMessage :=
  let newRetryCount := jsAdd1 retryCount
  if jsGE newRetryCount env.maxRetries then (false, [])
  else
    let msg : RetryMessage :=
      { queueUrl := queueUrl
        challengeId := challengeId
        submissionId := submissionId
        scorerType := scorerType
        retryCount := newRetryCount
        attrRetryCount := jsNumToString newRetryCount
        attrScorerType := scorerType }
    match env.sqsSend msg with
    | .ok _ => (true, [msg])
    | .error _ => (false, [msg])

/-- The body of the completion handler's `try` block: extract tags (the one
step that can throw), classify success, and on failure with known ids and
an available queue URL delegate to `sendRetryMessage`.  Returns the 200
response and the trace of retry messages sent. -/
def completionBody (env : CompletionEnv) (event : CompletionEvent) :
    Except String (CompletionResponse × List RetryMessage) :=
  let detail := event.detail.getD ⟨none, none⟩
  match extractTags detail.tags with
  | .error e => .error e
  | .ok tagMap =>
    let challengeId := (tagMap.lookup "ChallengeId").getD "unknown"
    let submissionId := (tagMap.lookup "SubmissionId").getD "unknown"
    let scorerType := (tagMap.lookup "ScorerType").getD "unknown"
    let retryCount := jsParseInt ((tagMap.lookup "RetryCount").getD "0")
    let success := isTaskSuccessful detail
    let trace :=
      if success then []
      else if challengeId ≠ "unknown" ∧ submissionId ≠ "unknown" then
        match jsTruthy (getQueueUrl env challengeId) with
        | some queueUrl =>
          (sendRetryMessage env queueUrl challengeId submissionId scorerType
            retryCount).2
        | none => []
      else []
    .ok ({ statusCode := 200
           success := some success
           challengeId := some challengeId
           submissionId := some submissionId
           retryQueued := some (!success && jsLT retryCount (env.maxRetries - 1)) },
         trace)

/-- Translation of the completion lambda's `handler`: run the body and
convert any thrown error into a `statusCode := 500` response instead of
propagating it (EventBridge must not redeliver on processing errors). -/
def completionHandler (env : CompletionEnv) (event : CompletionEvent) :
    CompletionResponse × List RetryMessage :=
  match completionBody env event with
  | .ok result => result
  | .error _ =>
    ({ statusCode := 500
       success := none
       challengeId := none
       submissionId := none
       retryQueued := none }, [])

/-! ## Concrete fixtures used by witnesses and counterexamples -/

/-- A syntactically valid submission UUID. -/
def uuid1 : String := "11111111-1111-1111-1111-111111111111"

/-- A syntactically valid challenge UUID. -/
def uuid2 : String := "22222222-2222-2222-2222-222222222222"

/-- A well-formed inbound message carrying both ids. -/
def testMsg : RouterMsg := ⟨some ⟨some uuid1, some uuid2⟩⟩

/-- A Kafka record fixture (its raw value is interpreted by the
environment's parse function). -/
def testKafkaRecord : KafkaRecord :=
  ⟨"submission.notification.create", 0, 100, "dGVzdA=="⟩

/-- Router environment where the challenge is active and SNS accepts. -/
def routerEnvActive : RouterEnv :=
  { parse := fun _ => .ok testMsg
    dynamoGet := fun _ => .ok (some ⟨some true⟩)
    snsSend := fun _ => .ok "mid-1" }

/-- Router environment where the challenge record is marked inactive. -/
def routerEnvInactive : RouterEnv :=
  { parse := fun _ => .ok testMsg
    dynamoGet := fun _ => .ok (some ⟨some false⟩)
    snsSend := fun _ => .ok "mid-1" }

/-- Router environment where the challenge record is absent. -/
def routerEnvMissing : RouterEnv :=
  { parse := fun _ => .ok testMsg
    dynamoGet := fun _ => .ok none
    snsSend := fun _ => .ok "mid-1" }

/-- Router environment where the DynamoDB lookup raises a transport
error. -/
def routerEnvLookupErr : RouterEnv :=
  { parse := fun _ => .ok testMsg
    dynamoGet := fun _ => .error "connection timed out"
    snsSend := fun _ => .ok "mid-1" }

/-- Router environment where the record value fails to decode/parse. -/
def routerEnvParseFail : RouterEnv :=
  { parse := fun _ => .error "SyntaxError: Unexpected token"
    dynamoGet := fun _ => .ok (some ⟨some true⟩)
    snsSend := fun _ => .ok "mid-1" }

/-- A well-formed message whose submission id is not a valid UUID. -/
def testMsgBadUuid : RouterMsg := ⟨some ⟨some "invalid-uuid", some uuid2⟩⟩

/-- Router environment whose records parse to a message with an invalid
submission id. -/
def routerEnvBadUuid : RouterEnv :=
  { parse := fun _ => .ok testMsgBadUuid
    dynamoGet := fun _ => .ok (some ⟨some true⟩)
    snsSend := fun _ => .ok "mid-1" }

/-- Router environment where the challenge is active but SNS publishing
raises a transport error. -/
def routerEnvPublishErr : RouterEnv :=
  { parse := fun _ => .ok testMsg
    dynamoGet := fun _ => .ok (some ⟨some true⟩)
    snsSend := fun _ => .error "SNS unavailable" }

/-- The worker configuration fixture: owns `uuid2`, budget of 3. -/
def workerCfg : WorkerConfig := ⟨uuid2, 3⟩

/-- A queue message body matching the worker's challenge. -/
def workerMsgGood : WorkerMsg := ⟨some ⟨some uuid1, some uuid2⟩⟩

/-- An SQS record with no `RetryCount` attribute. -/
def sqsRec0 : SqsRecord := ⟨"msg-1", "raw-body", []⟩

/-- An SQS record explicitly forwarded with `RetryCount = 2`. -/
def sqsRecRetry2 : SqsRecord := ⟨"msg-2", "raw-body", [("RetryCount", "2")]⟩

/-- Worker environment with scorers `a` and `b` where every launch
succeeds. -/
def workerEnvTwoScorers : WorkerEnv :=
  { parseBody := fun _ => .ok workerMsgGood
    loadChallengeConfig := .ok ⟨some ["a", "b"]⟩
    getAccessToken := .ok "token-1"
    loadScorerConfig := fun st => .ok ("scorer-config-" ++ st)
    runTask := fun li => .ok ["arn-task-" ++ li.scorerTypeTag] }

/-- Worker environment with scorers `a` and `b` where every launch
fails. -/
def workerEnvAllFail : WorkerEnv :=
  { workerEnvTwoScorers with runTask := fun _ => .error "RunTask failed" }

/-- Worker environment with scorers `a` and `b` where only the launch for
`b` succeeds. -/
def workerEnvOneFail : WorkerEnv :=
  { workerEnvTwoScorers with
      runTask := fun li =>
        if li.scorerTypeTag = "a" then .error "RunTask failed"
        else .ok ["arn-task-" ++ li.scorerTypeTag] }

/-- Worker environment whose challenge configuration lists no scorers. -/
def workerEnvNoScorers : WorkerEnv :=
  { workerEnvTwoScorers with loadChallengeConfig := .ok ⟨some []⟩ }

/-- Worker environment with scorers `a` and `b` where scorer `a`'s
configuration loads and its launch succeeds, but scorer `b`'s
configuration load throws, aborting the loop after `a` was launched. -/
def workerEnvConfigAbort : WorkerEnv :=
  { workerEnvTwoScorers with
      loadScorerConfig := fun st =>
        if st = "a" then .ok "scorer-config-a"
        else .error "SSM ParameterNotFound" }

/-- A correlation tag entry fixture. -/
def mkTag (k v : String) : Option Tag := some ⟨some k, some v⟩

/-- The tag array attached by the worker to a launched task, with the given
`RetryCount` string. -/
def tagsFix (rc : String) : Option (List (Option Tag)) :=
  some [mkTag "ChallengeId" uuid2, mkTag "SubmissionId" uuid1,
    mkTag "ScorerType" "example", mkTag "RetryCount" rc]

/-- Task detail of a failed task (exit code 1) carrying the fixture tags. -/
def detailFailR (rc : String) : CompletionDetail := ⟨some [⟨some 1⟩], tagsFix rc⟩

/-- EventBridge event for a failed task at the given retry count. -/
def eventFailR (rc : String) : CompletionEvent := ⟨some (detailFailR rc)⟩

/-- Completion environment: budget 3, table configured, queue URL found,
SQS accepting. -/
def compEnv : CompletionEnv :=
  { maxRetries := 3
    challengeMappingTable := some "challenge-mapping"
    dynamoGet := fun _ => .ok (some ⟨some (some "https://sqs/queue-2")⟩)
    sqsSend := fun _ => .ok () }

/-- An event whose tag array contains a `null` element, making tag
extraction throw inside the handler's try block. -/
def eventNullTag : CompletionEvent := ⟨some ⟨some [⟨some 0⟩], some [none]⟩⟩

/-! ## Helper lemmas -/

/-- The router treats a challenge as active exactly when the lookup
succeeds, finds an item, and that item's `active` attribute is the
boolean `true`. -/
theorem isChallengeActive_iff (env : RouterEnv) (c : String) :
    isChallengeActive env c = true ↔
      ∃ item, env.dynamoGet c = .ok (some item) ∧ item.active = some true := by
  unfold isChallengeActive
  cases h : env.dynamoGet c with
  | error e => simp
  | ok oitem =>
    cases oitem with
    | none => simp
    | some item => simp [decide_eq_true_eq]

/-- Inversion for router publishes: any publish in the trace of
`routerProcessRecord` comes from a successfully parsed message whose
truthy challenge id passed the active check, and is the command built by
`publishToSns`. -/
theorem routerProcessRecord_pub_mem (env : RouterEnv) (r : KafkaRecord)
    (pub : SnsPublish) (h : pub ∈ (routerProcessRecord env r).2) :
    ∃ msg c, env.parse r.value = .ok msg ∧ jsTruthy msg.challengeId = some c ∧
      isChallengeActive env c = true ∧ pub = publishToSns msg c := by
  unfold routerProcessRecord at h
  cases hp : env.parse r.value with
  | error e => rw [hp] at h; simp at h
  | ok msg =>
    rw [hp] at h
    dsimp only at h
    cases hs : jsTruthy msg.submissionId with
    | none => rw [hs] at h; simp at h
    | some s =>
      rw [hs] at h
      dsimp only at h
      cases hc : jsTruthy msg.challengeId with
      | none => rw [hc] at h; simp at h
      | some c =>
        rw [hc] at h
        dsimp only at h
        by_cases hvs : isValidUuid s
        · by_cases hvc : isValidUuid c
          · by_cases hact : isChallengeActive env c
            · simp only [hvs, hvc, hact, Bool.not_true, Bool.false_eq_true,
                if_false] at h
              cases hsend : env.snsSend (publishToSns msg c) with
              | ok v =>
                rw [hsend] at h
                simp at h
                exact ⟨msg, c, rfl, hc, hact, h⟩
              | error e =>
                rw [hsend] at h
                simp at h
                exact ⟨msg, c, rfl, hc, hact, h⟩
            · simp [hvs, hvc, hact] at h
          · simp [hvs, hvc] at h
        · simp [hvs] at h

/-- A record whose payload fails to decode or parse is reported as a batch
item failure with no publish. -/
theorem routerRun_parse_error (env : RouterEnv) (r : KafkaRecord) (e : String)
    (hp : env.parse r.value = .error e) :
    (routerProcessRecord env r).1.success = false ∧
      (routerProcessRecord env r).2 = [] := by
  unfold routerProcessRecord
  rw [hp]
  exact ⟨rfl, rfl⟩

/-- A parsed record with falsy `submissionId` is skipped as handled. -/
theorem routerRun_sub_missing (env : RouterEnv) (r : KafkaRecord) (msg : RouterMsg)
    (hp : env.parse r.value = .ok msg) (hs : jsTruthy msg.submissionId = none) :
    (routerProcessRecord env r).1.success = true ∧
      (routerProcessRecord env r).2 = [] := by
  unfold routerProcessRecord
  rw [hp]; dsimp only; rw [hs]
  exact ⟨rfl, rfl⟩

/-- A parsed record with falsy `challengeId` is skipped as handled. -/
theorem routerRun_chal_missing (env : RouterEnv) (r : KafkaRecord) (msg : RouterMsg)
    (s : String) (hp : env.parse r.value = .ok msg)
    (hs : jsTruthy msg.submissionId = some s)
    (hc : jsTruthy msg.challengeId = none) :
    (routerProcessRecord env r).1.success = true ∧
      (routerProcessRecord env r).2 = [] := by
  unfold routerProcessRecord
  rw [hp]; dsimp only; rw [hs]; dsimp only; rw [hc]
  exact ⟨rfl, rfl⟩

/-- A parsed record with a non-UUID `submissionId` is skipped as handled. -/
theorem routerRun_sub_invalid (env : RouterEnv) (r : KafkaRecord) (msg : RouterMsg)
    (s c : String) (hp : env.parse r.value = .ok msg)
    (hs : jsTruthy msg.submissionId = some s)
    (hc : jsTruthy msg.challengeId = some c) (hvs : isValidUuid s = false) :
    (routerProcessRecord env r).1.success = true ∧
      (routerProcessRecord env r).2 = [] := by
  unfold routerProcessRecord
  rw [hp]; dsimp only; rw [hs]; dsimp only; rw [hc]; dsimp only
  simp [hvs]

/-- A parsed record with a non-UUID `challengeId` is skipped as handled. -/
theorem routerRun_chal_invalid (env : RouterEnv) (r : KafkaRecord) (msg : RouterMsg)
    (s c : String) (hp : env.parse r.value = .ok msg)
    (hs : jsTruthy msg.submissionId = some s)
    (hc : jsTruthy msg.challengeId = some c) (hvc : isValidUuid c = false) :
    (routerProcessRecord env r).1.success = true ∧
      (routerProcessRecord env r).2 = [] := by
  unfold routerProcessRecord
  rw [hp]; dsimp only; rw [hs]; dsimp only; rw [hc]; dsimp only
  by_cases hvs : isValidUuid s <;> simp [hvs, hvc]

/-- A valid record whose challenge is not active (including lookup errors,
which `isChallengeActive` catches) is skipped as handled. -/
theorem routerRun_inactive (env : RouterEnv) (r : KafkaRecord) (msg : RouterMsg)
    (s c : String) (hp : env.parse r.value = .ok msg)
    (hs : jsTruthy msg.submissionId = some s)
    (hc : jsTruthy msg.challengeId = some c)
    (hvs : isValidUuid s = true) (hvc : isValidUuid c = true)
    (hact : isChallengeActive env c = false) :
    (routerProcessRecord env r).1.success = true ∧
      (routerProcessRecord env r).2 = [] := by
  unfold routerProcessRecord
  rw [hp]; dsimp only; rw [hs]; dsimp only; rw [hc]; dsimp only
  simp [hvs, hvc, hact]

/-- A valid, active record is published exactly once; the item is marked
handled when SNS accepts and failed when SNS throws. -/
theorem routerRun_active (env : RouterEnv) (r : KafkaRecord) (msg : RouterMsg)
    (s c : String) (hp : env.parse r.value = .ok msg)
    (hs : jsTruthy msg.submissionId = some s)
    (hc : jsTruthy msg.challengeId = some c)
    (hvs : isValidUuid s = true) (hvc : isValidUuid c = true)
    (hact : isChallengeActive env c = true) :
    (routerProcessRecord env r).2 = [publishToSns msg c] ∧
      (routerProcessRecord env r).1.success =
        (env.snsSend (publishToSns msg c)).toOption.isSome := by
  unfold routerProcessRecord
  rw [hp]; dsimp only; rw [hs]; dsimp only; rw [hc]; dsimp only
  simp only [hvs, hvc, hact, Bool.not_true, Bool.false_eq_true, if_false]
  cases hsend : env.snsSend (publishToSns msg c) <;>
    simp [Except.toOption]

/-- Whenever the challenge of a parsed message is not active (absent,
inactive, or a caught lookup error), the router marks the item handled and
publishes nothing, whatever the state of the ids. -/
theorem router_skip_of_inactive (env : RouterEnv) (r : KafkaRecord)
    (msg : RouterMsg) (c : String) (hp : env.parse r.value = .ok msg)
    (hc : jsTruthy msg.challengeId = some c)
    (hact : isChallengeActive env c = false) :
    (routerProcessRecord env r).1.success = true ∧
      (routerProcessRecord env r).2 = [] := by
  cases hs : jsTruthy msg.submissionId with
  | none => exact routerRun_sub_missing env r msg hp hs
  | some s =>
    by_cases hvs : isValidUuid s = true
    · by_cases hvc : isValidUuid c = true
      · exact routerRun_inactive env r msg s c hp hs hc hvs hvc hact
      · simp only [Bool.not_eq_true] at hvc
        exact routerRun_chal_invalid env r msg s c hp hs hc hvc
    · simp only [Bool.not_eq_true] at hvs
      exact routerRun_sub_invalid env r msg s c hp hs hc hvs

/-! ## Claim theorems -/

/-- C5: the router publishes to the fan-out only when a routing record for
the message's challenge id exists with `active = true` (first conjunct:
every publish in the trace carries a challenge id whose lookup found an
item with a true `active` boolean); and whenever the lookup finds no
record, or a record whose `active` attribute is not the boolean `true`,
no publish occurs and the item is marked handled (second conjunct). -/
theorem router_forwards_only_active (env : RouterEnv) (r : KafkaRecord) :
    (∀ pub ∈ (routerProcessRecord env r).2,
        ∃ c item, pub.attrs = [("challengeId", c)] ∧
          env.dynamoGet c = .ok (some item) ∧ item.active = some true) ∧
    (∀ msg c, env.parse r.value = .ok msg →
        jsTruthy msg.challengeId = some c →
        (env.dynamoGet c = .ok none ∨
          (∃ item, env.dynamoGet c = .ok (some item) ∧ item.active ≠ some true)) →
        (routerProcessRecord env r).1.success = true ∧
          (routerProcessRecord env r).2 = []) := by
  constructor
  · intro pub hpub
    obtain ⟨msg, c, hp, hc, hact, rfl⟩ := routerProcessRecord_pub_mem env r pub hpub
    obtain ⟨item, hget, hactive⟩ := (isChallengeActive_iff env c).1 hact
    exact ⟨c, item, rfl, hget, hactive⟩
  · intro msg c hp hc hmiss
    have hact : isChallengeActive env c = false := by
      unfold isChallengeActive
      rcases hmiss with h1 | ⟨item, h2, h3⟩
      · rw [h1]
      · rw [h2]; simp [h3]
    exact router_skip_of_inactive env r msg c hp hc hact

/-- Witness for C5: with an inactive routing record the fixture record is
handled without any publish. -/
theorem router_forwards_only_active_witness :
    (routerProcessRecord routerEnvInactive testKafkaRecord).1.success = true ∧
      (routerProcessRecord routerEnvInactive testKafkaRecord).2 = [] :=
  (router_forwards_only_active routerEnvInactive testKafkaRecord).2 testMsg uuid2
    rfl rfl (Or.inr ⟨⟨some false⟩, rfl, by decide⟩)

/-- C6 counterexample: a record whose payload fails to decode/parse is NOT
marked handled — the thrown parse error is caught as an item failure
(`success = false`), so the claim's "marks the item as handled" is false
on this input. -/
theorem router_parse_failure_counterexample :
    ¬ ((routerProcessRecord routerEnvParseFail testKafkaRecord).1.success = true) := by
  decide

/-- C6 amended: a record that parses but is missing `submissionId` or
`challengeId`, or carries an id that is not a canonical UUID, is marked
handled and never published; a record whose payload fails to decode or
parse is instead marked failed (and redelivered), also without
publishing. -/
theorem router_invalid_input_disposition (env : RouterEnv) (r : KafkaRecord) :
    (∀ e, env.parse r.value = .error e →
        (routerProcessRecord env r).1.success = false ∧
          (routerProcessRecord env r).2 = []) ∧
    (∀ msg, env.parse r.value = .ok msg →
        (jsTruthy msg.submissionId = none ∨ jsTruthy msg.challengeId = none ∨
          (∃ s, jsTruthy msg.submissionId = some s ∧ isValidUuid s = false) ∨
          (∃ c, jsTruthy msg.challengeId = some c ∧ isValidUuid c = false)) →
        (routerProcessRecord env r).1.success = true ∧
          (routerProcessRecord env r).2 = []) := by
  constructor
  · intro e hp
    exact routerRun_parse_error env r e hp
  · intro msg hp hbad
    cases hs : jsTruthy msg.submissionId with
    | none => exact routerRun_sub_missing env r msg hp hs
    | some s =>
      cases hc : jsTruthy msg.challengeId with
      | none => exact routerRun_chal_missing env r msg s hp hs hc
      | some c =>
        rcases hbad with h1 | h2 | ⟨s', hs', hvs⟩ | ⟨c', hc', hvc⟩
        · rw [hs] at h1; cases h1
        · rw [hc] at h2; cases h2
        · rw [hs] at hs'; injection hs' with he; subst he
          exact routerRun_sub_invalid env r msg s c hp hs hc hvs
        · rw [hc] at hc'; injection hc' with he; subst he
          exact routerRun_chal_invalid env r msg s c hp hs hc hvc

/-- Witness for the amended C6: a message with a malformed submission id is
handled (not failed) and nothing is published. -/
theorem router_invalid_input_disposition_witness :
    (routerProcessRecord routerEnvBadUuid testKafkaRecord).1.success = true ∧
      (routerProcessRecord routerEnvBadUuid testKafkaRecord).2 = [] :=
  (router_invalid_input_disposition routerEnvBadUuid testKafkaRecord).2
    testMsgBadUuid rfl
    (Or.inr (Or.inr (Or.inl ⟨"invalid-uuid", rfl, by decide⟩)))

/-- C3 counterexample: on a record whose RoutingStore lookup raises a
transport error, the item is NOT marked failed — `isChallengeActive`
catches the error and the item is skipped as handled, so the claim's
"marks that item as failed" is false on this input. -/
theorem router_lookup_error_counterexample :
    ¬ ((routerProcessRecord routerEnvLookupErr testKafkaRecord).1.success = false) := by
  decide

/-- C3 amended: a RoutingStore lookup transport error is caught inside
`isChallengeActive` and converted into the same terminal skip as an
inactive challenge — the item is marked handled with no publish; only a
publish (SNS) transport error marks the item failed so the ingress
transport redelivers it. -/
theorem router_transport_error_disposition (env : RouterEnv) (r : KafkaRecord) :
    (∀ msg c e, env.parse r.value = .ok msg →
        jsTruthy msg.challengeId = some c → env.dynamoGet c = .error e →
        (routerProcessRecord env r).1.success = true ∧
          (routerProcessRecord env r).2 = []) ∧
    (∀ msg s c e, env.parse r.value = .ok msg →
        jsTruthy msg.submissionId = some s → jsTruthy msg.challengeId = some c →
        isValidUuid s = true → isValidUuid c = true →
        isChallengeActive env c = true →
        env.snsSend (publishToSns msg c) = .error e →
        (routerProcessRecord env r).1.success = false ∧
          (routerProcessRecord env r).2 = [publishToSns msg c]) := by
  constructor
  · intro msg c e hp hc herr
    have hact : isChallengeActive env c = false := by
      unfold isChallengeActive; rw [herr]
    exact router_skip_of_inactive env r msg c hp hc hact
  · intro msg s c e hp hs hc hvs hvc hact hsend
    obtain ⟨htr, hsu⟩ := routerRun_active env r msg s c hp hs hc hvs hvc hact
    refine ⟨?_, htr⟩
    rw [hsu, hsend]
    rfl

/-- Witness for the amended C3: on the fixture whose lookup times out the
item is handled with no publish. -/
theorem router_transport_error_disposition_witness :
    (routerProcessRecord routerEnvLookupErr testKafkaRecord).1.success = true ∧
      (routerProcessRecord routerEnvLookupErr testKafkaRecord).2 = [] :=
  (router_transport_error_disposition routerEnvLookupErr testKafkaRecord).1
    testMsg uuid2 "connection timed out" rfl rfl rfl

/-- C2: the completion correlator classifies a job as successful iff the
notification carries at least one container exit-status entry and every
entry's exit status equals 0; in particular a notification with no status
entries is a failure. -/
theorem task_success_iff (detail : CompletionDetail) :
    isTaskSuccessful detail = true ↔
      (detail.containers.getD [] ≠ [] ∧
        ∀ c ∈ detail.containers.getD [], c.exitCode = some 0) := by
  unfold isTaskSuccessful
  cases h : detail.containers.getD [] with
  | nil => simp
  | cons a l => simp [List.all_eq_true]

/-- C8: a router publish carries only the `challengeId` attribute, so any
queue record delivered with a router publish's attributes has retry count
0 (first conjunct); the worker takes an absent `RetryCount` attribute as
retry count 0 (second conjunct); and a nonzero retry count is observed
only when a non-empty `RetryCount` attribute parsing to that value was
explicitly forwarded on the message (third conjunct). -/
theorem dispatch_retry_count_zero_default (env : RouterEnv) (r : KafkaRecord)
    (rec : SqsRecord) :
    (∀ pub ∈ (routerProcessRecord env r).2,
        rec.messageAttributes = pub.attrs → getRetryCount rec = some 0) ∧
    (rec.messageAttributes.lookup "RetryCount" = none →
        getRetryCount rec = some 0) ∧
    (∀ n : Int, getRetryCount rec = some n → n ≠ 0 →
        ∃ s, rec.messageAttributes.lookup "RetryCount" = some s ∧ s ≠ "" ∧
          jsParseInt s = some n) := by
  refine ⟨?_, ?_, ?_⟩
  · intro pub hpub heq
    obtain ⟨msg, c, _, _, _, rfl⟩ := routerProcessRecord_pub_mem env r pub hpub
    unfold getRetryCount
    rw [heq]
    rfl
  · intro hnone
    unfold getRetryCount
    rw [hnone]
  · intro n hn hne
    unfold getRetryCount at hn
    cases hl : rec.messageAttributes.lookup "RetryCount" with
    | none =>
      rw [hl] at hn
      simp at hn
      exact absurd hn.symm hne
    | some s =>
      rw [hl] at hn
      dsimp only at hn
      by_cases hse : s = ""
      · rw [if_pos hse] at hn
        simp at hn
        exact absurd hn.symm hne
      · rw [if_neg hse] at hn
        exact ⟨s, rfl, hse, hn⟩

/-- Witness for C8: a record carrying exactly a router publish's attributes
has retry count 0, the attribute-free fixture record has retry count 0,
and the record forwarded with `RetryCount = "2"` exposes its explicit
attribute. -/
theorem dispatch_retry_count_zero_default_witness :
    getRetryCount ⟨"m-0", "b", [("challengeId", uuid2)]⟩ = some 0 ∧
      getRetryCount sqsRec0 = some 0 ∧
      (∃ s, sqsRecRetry2.messageAttributes.lookup "RetryCount" = some s ∧
        s ≠ "" ∧ jsParseInt s = some 2) := by
  refine ⟨?_, ?_, ?_⟩
  · exact (dispatch_retry_count_zero_default routerEnvActive testKafkaRecord
      ⟨"m-0", "b", [("challengeId", uuid2)]⟩).1 (publishToSns testMsg uuid2)
      (by decide) rfl
  · exact (dispatch_retry_count_zero_default routerEnvActive testKafkaRecord
      sqsRec0).2.1 rfl
  · exact (dispatch_retry_count_zero_default routerEnvActive testKafkaRecord
      sqsRecRetry2).2.2 2 (by decide) (by decide)

/-- When every scorer configuration loads, the launch loop completes and
issues exactly one launch per scorer type, in order, all sharing the
worker's challenge id tag, the message's submission id tag and the retry
count tag. -/
theorem workerLaunchLoop_ok (env : WorkerEnv) (cfg : WorkerConfig)
    (sub : Option String) (rcTag accessToken : String) :
    ∀ scorers : List String,
      (∀ st ∈ scorers, ∃ sc, env.loadScorerConfig st = .ok sc) →
      (workerLaunchLoop env cfg sub rcTag accessToken scorers).2 = true ∧
        ((workerLaunchLoop env cfg sub rcTag accessToken scorers).1.map
            (fun p => p.1.scorerTypeTag)) = scorers ∧
        ∀ p ∈ (workerLaunchLoop env cfg sub rcTag accessToken scorers).1,
          p.1.challengeIdTag = cfg.challengeId ∧ p.1.submissionIdTag = sub ∧
            p.1.retryCountTag = rcTag := by
  intro scorers
  induction scorers with
  | nil => intro _; exact ⟨rfl, rfl, by simp [workerLaunchLoop]⟩
  | cons st rest ih =>
    intro hall
    obtain ⟨sc, hsc⟩ := hall st (List.mem_cons_self st rest)
    have hrest := ih (fun st' hm => hall st' (List.mem_cons_of_mem _ hm))
    cases hloop : workerLaunchLoop env cfg sub rcTag accessToken rest with
    | mk tr comp =>
      rw [hloop] at hrest
      unfold workerLaunchLoop
      rw [hsc]
      dsimp only
      rw [hloop]
      dsimp only
      obtain ⟨h1, h2, h3⟩ := hrest
      refine ⟨h1, ?_, ?_⟩
      · simp only [List.map_cons]
        exact congrArg (st :: ·) h2
      · intro p hp
        rcases List.mem_cons.mp hp with rfl | hmem
        · exact ⟨rfl, rfl, rfl⟩
        · exact h3 p hmem

/-- The worker's all-launches-failed test: the filtered failure count fills
the whole non-empty trace exactly when no entry succeeded. -/
theorem exists_ok_iff_not_all_fail (l : List (LaunchInput × Except String String))
    (hne : l ≠ []) :
    (¬ (0 < (l.filter fun p => !(p.2.toOption.isSome)).length ∧
        (l.filter fun p => !(p.2.toOption.isSome)).length = l.length)) ↔
      ∃ p ∈ l, p.2.toOption.isSome = true := by
  constructor
  · intro hnot
    by_contra hex
    push_neg at hex
    apply hnot
    have hall : ∀ p ∈ l, (!(p.2.toOption.isSome)) = true := by
      intro p hp
      have := hex p hp
      simp only [Bool.not_eq_true] at this ⊢
      simp [this]
    have hfl : l.filter (fun p => !(p.2.toOption.isSome)) = l :=
      List.filter_eq_self.mpr hall
    rw [hfl]
    exact ⟨List.length_pos.mpr hne, rfl⟩
  · rintro ⟨p, hp, hok⟩ ⟨_, heq⟩
    have hfl : l.filter (fun p => !(p.2.toOption.isSome)) = l :=
      (List.filter_sublist l).eq_of_length heq
    have := (List.filter_eq_self.mp hfl) p hp
    rw [hok] at this
    cases this

/-- The worker reaches its launch section exactly under these hypotheses:
the body parses, the challenge matches, the budget is not exhausted and
the configuration and credential load; then the result is determined by
the launch loop over the configured scorers. -/
theorem workerProcessRecord_launch_phase (env : WorkerEnv) (cfg : WorkerConfig)
    (r : SqsRecord) (msg : WorkerMsg) (ccfg : ChallengeConfig) (token : String)
    (hp : env.parseBody r.body = .ok msg)
    (hchal : msg.payload.bind (·.challengeId) = some cfg.challengeId)
    (hrc : jsGE (getRetryCount r) cfg.maxRetries = false)
    (hcc : env.loadChallengeConfig = .ok ccfg)
    (htok : env.getAccessToken = .ok token) :
    workerProcessRecord env cfg r =
      (if (ccfg.scorers.getD []).isEmpty then (⟨true, r.messageId⟩, [])
       else
        let lp := workerLaunchLoop env cfg (msg.payload.bind (·.submissionId))
          (jsNumToString (getRetryCount r)) token (ccfg.scorers.getD [])
        if !lp.2 then (⟨false, r.messageId⟩, lp.1)
        else
          if 0 < (lp.1.filter fun p => !(p.2.toOption.isSome)).length ∧
              (lp.1.filter fun p => !(p.2.toOption.isSome)).length = lp.1.length
          then (⟨false, r.messageId⟩, lp.1)
          else (⟨true, r.messageId⟩, lp.1)) := by
  unfold workerProcessRecord
  rw [hp]
  dsimp only
  rw [hchal, hcc, htok, hrc]
  dsimp only
  rw [if_neg (by simp)]
  rfl

/-- C9: when the challenge configuration lists zero sub-task types, the
worker acknowledges the message (`success = true`) and issues no launch
at all. -/
theorem worker_no_scorers_acks (env : WorkerEnv) (cfg : WorkerConfig)
    (r : SqsRecord) (msg : WorkerMsg) (ccfg : ChallengeConfig) (token : String)
    (hp : env.parseBody r.body = .ok msg)
    (hchal : msg.payload.bind (·.challengeId) = some cfg.challengeId)
    (hrc : jsGE (getRetryCount r) cfg.maxRetries = false)
    (hcc : env.loadChallengeConfig = .ok ccfg)
    (htok : env.getAccessToken = .ok token)
    (hsc : ccfg.scorers.getD [] = []) :
    workerProcessRecord env cfg r = (⟨true, r.messageId⟩, []) := by
  rw [workerProcessRecord_launch_phase env cfg r msg ccfg token hp hchal hrc hcc htok]
  rw [hsc]
  rfl

/-- Witness for C9: the fixture with an empty scorer list acknowledges and
launches nothing. -/
theorem worker_no_scorers_acks_witness :
    workerProcessRecord workerEnvNoScorers workerCfg sqsRec0 =
      (⟨true, "msg-1"⟩, []) :=
  worker_no_scorers_acks workerEnvNoScorers workerCfg sqsRec0 workerMsgGood
    ⟨some []⟩ "token-1" rfl rfl (by decide) rfl rfl rfl

/-- C7: under a matching key and an unexhausted budget, the worker issues
exactly one launch per configured sub-task type (N launches for N types,
in order), every launch carrying the worker's `ChallengeId` tag, the
message's `SubmissionId` tag and the envelope's `RetryCount` tag, so the
launches differ only in their `ScorerType` tag. -/
theorem worker_fanout_launches (env : WorkerEnv) (cfg : WorkerConfig)
    (r : SqsRecord) (msg : WorkerMsg) (ccfg : ChallengeConfig) (token : String)
    (scorers : List String)
    (hp : env.parseBody r.body = .ok msg)
    (hchal : msg.payload.bind (·.challengeId) = some cfg.challengeId)
    (hrc : jsGE (getRetryCount r) cfg.maxRetries = false)
    (hcc : env.loadChallengeConfig = .ok ccfg)
    (htok : env.getAccessToken = .ok token)
    (hsc : ccfg.scorers.getD [] = scorers)
    (hload : ∀ st ∈ scorers, ∃ sc, env.loadScorerConfig st = .ok sc) :
    (workerProcessRecord env cfg r).2.length = scorers.length ∧
      ((workerProcessRecord env cfg r).2.map (fun p => p.1.scorerTypeTag)) = scorers ∧
      ∀ p ∈ (workerProcessRecord env cfg r).2,
        p.1.challengeIdTag = cfg.challengeId ∧
          p.1.submissionIdTag = msg.payload.bind (·.submissionId) ∧
          p.1.retryCountTag = jsNumToString (getRetryCount r) := by
  rw [workerProcessRecord_launch_phase env cfg r msg ccfg token hp hchal hrc hcc htok]
  rw [hsc]
  cases scorers with
  | nil => exact ⟨rfl, rfl, by simp⟩
  | cons st rest =>
    obtain ⟨h1, h2, h3⟩ := workerLaunchLoop_ok env cfg
      (msg.payload.bind (·.submissionId)) (jsNumToString (getRetryCount r))
      token (st :: rest) hload
    cases hloop : workerLaunchLoop env cfg (msg.payload.bind (·.submissionId))
        (jsNumToString (getRetryCount r)) token (st :: rest) with
    | mk tr comp =>
      rw [hloop] at h1 h2 h3
      dsimp only at h1 h2 h3 ⊢
      simp only [List.isEmpty_cons, Bool.false_eq_true, if_false, h1,
        Bool.not_true]
      have hmap : tr.map (fun p => p.1.scorerTypeTag) = st :: rest := h2
      have hlen : tr.length = (st :: rest).length := by
        rw [← hmap]; exact (List.length_map tr _).symm
      by_cases hcond : (0 < (tr.filter fun p => !(p.2.toOption.isSome)).length ∧
          (tr.filter fun p => !(p.2.toOption.isSome)).length = tr.length)
      · rw [if_pos hcond]; exact ⟨hlen, hmap, h3⟩
      · rw [if_neg hcond]; exact ⟨hlen, hmap, h3⟩

/-- Witness for C7: the two-scorer fixture issues exactly two launches
tagged `a` and `b`, sharing submission id, challenge id and retry count
tags. -/
theorem worker_fanout_launches_witness :
    (workerProcessRecord workerEnvTwoScorers workerCfg sqsRec0).2.length = 2 ∧
      ((workerProcessRecord workerEnvTwoScorers workerCfg sqsRec0).2.map
          (fun p => p.1.scorerTypeTag)) = ["a", "b"] ∧
      ∀ p ∈ (workerProcessRecord workerEnvTwoScorers workerCfg sqsRec0).2,
        p.1.challengeIdTag = workerCfg.challengeId ∧
          p.1.submissionIdTag = workerMsgGood.payload.bind (·.submissionId) ∧
          p.1.retryCountTag = jsNumToString (getRetryCount sqsRec0) :=
  worker_fanout_launches workerEnvTwoScorers workerCfg sqsRec0 workerMsgGood
    ⟨some ["a", "b"]⟩ "token-1" ["a", "b"] rfl rfl (by decide) rfl rfl rfl
    (by intro st hm; exact ⟨"scorer-config-" ++ st, rfl⟩)

/-- A scorer-configuration load error partway through the scorer list
aborts the launch loop (completion flag `false`), however the earlier
launches went. -/
theorem workerLaunchLoop_abort (env : WorkerEnv) (cfg : WorkerConfig)
    (sub : Option String) (rcTag accessToken : String) :
    ∀ (pre : List String) (st : String) (post : List String) (e : String),
      (∀ s' ∈ pre, ∃ sc, env.loadScorerConfig s' = .ok sc) →
      env.loadScorerConfig st = .error e →
      (workerLaunchLoop env cfg sub rcTag accessToken (pre ++ st :: post)).2 =
        false := by
  intro pre
  induction pre with
  | nil =>
    intro st post e _ herr
    rw [List.nil_append]
    unfold workerLaunchLoop
    rw [herr]
  | cons p rest ih =>
    intro st post e hpre herr
    obtain ⟨sc, hsc⟩ := hpre p (List.mem_cons_self p rest)
    have ih' := ih st post e (fun s' hm => hpre s' (List.mem_cons_of_mem _ hm)) herr
    rw [List.cons_append]
    unfold workerLaunchLoop
    rw [hsc]
    dsimp only
    cases hloop : workerLaunchLoop env cfg sub rcTag accessToken
        (rest ++ st :: post) with
    | mk tr comp =>
      rw [hloop] at ih'
      exact ih'

/-- C4 counterexample: with scorer `a`'s configuration loading and its
launch succeeding, but scorer `b`'s configuration load throwing, the item
is reported failed (`success = false`) although a launch for the message
succeeded — the claim's "ok=true if at least one job launch succeeds /
failed only when every launch fails" is false on this input. -/
theorem worker_partial_config_counterexample :
    ¬ ((∃ p ∈ (workerProcessRecord workerEnvConfigAbort workerCfg sqsRec0).2,
          p.2.toOption.isSome = true) →
        (workerProcessRecord workerEnvConfigAbort workerCfg sqsRec0).1.success
          = true) := by
  decide

/-- C4 (amended): under a matching key and an unexhausted budget, when
every configured scorer's configuration loads and the scorer list is
non-empty, the worker's per-item outcome is `success = true` exactly when
at least one launch succeeded — the item is failed only when every launch
failed (first conjunct); but when a scorer-configuration load throws
partway through the list, the item is failed regardless of how the
launches already issued fared (second conjunct). -/
theorem worker_ok_iff_any_launch (env : WorkerEnv) (cfg : WorkerConfig)
    (r : SqsRecord) (msg : WorkerMsg) (ccfg : ChallengeConfig) (token : String)
    (scorers : List String)
    (hp : env.parseBody r.body = .ok msg)
    (hchal : msg.payload.bind (·.challengeId) = some cfg.challengeId)
    (hrc : jsGE (getRetryCount r) cfg.maxRetries = false)
    (hcc : env.loadChallengeConfig = .ok ccfg)
    (htok : env.getAccessToken = .ok token)
    (hsc : ccfg.scorers.getD [] = scorers) :
    ((∀ st ∈ scorers, ∃ sc, env.loadScorerConfig st = .ok sc) → scorers ≠ [] →
      ((workerProcessRecord env cfg r).1.success = true ↔
        ∃ p ∈ (workerProcessRecord env cfg r).2, p.2.toOption.isSome = true)) ∧
    (∀ (pre : List String) (st : String) (post : List String) (e : String),
      scorers = pre ++ st :: post →
      (∀ s' ∈ pre, ∃ sc, env.loadScorerConfig s' = .ok sc) →
      env.loadScorerConfig st = .error e →
      (workerProcessRecord env cfg r).1.success = false) := by
  constructor
  · intro hload hne
    rw [workerProcessRecord_launch_phase env cfg r msg ccfg token hp hchal hrc hcc htok]
    rw [hsc]
    obtain ⟨h1, h2, _⟩ := workerLaunchLoop_ok env cfg
      (msg.payload.bind (·.submissionId)) (jsNumToString (getRetryCount r))
      token scorers hload
    cases hloop : workerLaunchLoop env cfg (msg.payload.bind (·.submissionId))
        (jsNumToString (getRetryCount r)) token scorers with
    | mk tr comp =>
      rw [hloop] at h1 h2
      dsimp only at h1 h2 ⊢
      rw [if_neg (by simp [List.isEmpty_iff, hne])]
      simp only [h1, Bool.not_true, Bool.false_eq_true, if_false]
      have htrne : tr ≠ [] := by
        intro hnil
        rw [hnil] at h2
        exact hne h2.symm
      by_cases hcond : (0 < (tr.filter fun p => !(p.2.toOption.isSome)).length ∧
          (tr.filter fun p => !(p.2.toOption.isSome)).length = tr.length)
      · rw [if_pos hcond]
        refine iff_of_false (by simp) ?_
        intro hex
        exact (exists_ok_iff_not_all_fail tr htrne).2 hex hcond
      · rw [if_neg hcond]
        exact iff_of_true rfl ((exists_ok_iff_not_all_fail tr htrne).1 hcond)
  · intro pre st post e hdec hpre herr
    rw [workerProcessRecord_launch_phase env cfg r msg ccfg token hp hchal hrc hcc htok]
    rw [hsc, hdec]
    have habort := workerLaunchLoop_abort env cfg
      (msg.payload.bind (·.submissionId)) (jsNumToString (getRetryCount r))
      token pre st post e hpre herr
    cases hloop : workerLaunchLoop env cfg (msg.payload.bind (·.submissionId))
        (jsNumToString (getRetryCount r)) token (pre ++ st :: post) with
    | mk tr comp =>
      rw [hloop] at habort
      dsimp only at habort ⊢
      rw [if_neg (by simp)]
      rw [habort]
      rfl

/-- Witness for the amended C4: in the fixture where the launch for `a`
fails and the launch for `b` succeeds (all configurations loading), the
item outcome is `success = true`; in the fixture where scorer `b`'s
configuration load throws after `a` launched, the item is failed. -/
theorem worker_ok_iff_any_launch_witness :
    (workerProcessRecord workerEnvOneFail workerCfg sqsRec0).1.success = true ∧
      (workerProcessRecord workerEnvConfigAbort workerCfg sqsRec0).1.success
        = false := by
  constructor
  · have h := (worker_ok_iff_any_launch workerEnvOneFail workerCfg sqsRec0
      workerMsgGood ⟨some ["a", "b"]⟩ "token-1" ["a", "b"] rfl rfl (by decide)
      rfl rfl rfl).1
      (by intro st hm; exact ⟨"scorer-config-" ++ st, rfl⟩) (by decide)
    rw [h]
    decide
  · exact (worker_ok_iff_any_launch workerEnvConfigAbort workerCfg sqsRec0
      workerMsgGood ⟨some ["a", "b"]⟩ "token-1" ["a", "b"] rfl rfl (by decide)
      rfl rfl rfl).2 ["a"] "b" [] "SSM ParameterNotFound" rfl
      (by intro s' hm; simp at hm; subst hm; exact ⟨"scorer-config-a", rfl⟩)
      rfl

/-- C1: for a failure completion whose tags carry known ids and a retry
count `k`, when the queue lookup yields a (truthy) queue URL, the handler
issues exactly one retry envelope onto that queue with retry count `k + 1`
if `k + 1 < maxRetries`, and no envelope at all if `k + 1 >= maxRetries`. -/
theorem completion_retry_monotone (env : CompletionEnv) (event : CompletionEvent)
    (detail : CompletionDetail) (tm : List (String × String)) (c s q : String)
    (k : Int)
    (hd : event.detail = some detail)
    (ht : extractTags detail.tags = .ok tm)
    (hc : tm.lookup "ChallengeId" = some c) (hcu : c ≠ "unknown")
    (hs : tm.lookup "SubmissionId" = some s) (hsu : s ≠ "unknown")
    (hk : jsParseInt ((tm.lookup "RetryCount").getD "0") = some k)
    (hfail : isTaskSuccessful detail = false)
    (hq : jsTruthy (getQueueUrl env c) = some q) :
    (k + 1 < env.maxRetries →
      ∃ m, (completionHandler env event).2 = [m] ∧ m.queueUrl = q ∧
        m.retryCount = some (k + 1) ∧ m.challengeId = c ∧ m.submissionId = s) ∧
    (env.maxRetries ≤ k + 1 → (completionHandler env event).2 = []) := by
  unfold completionHandler completionBody
  rw [hd]
  simp only [Option.getD_some]
  rw [ht]
  dsimp only
  rw [hc, hs, hk]
  simp only [Option.getD_some, hfail, Bool.false_eq_true, if_false]
  rw [if_pos ⟨hcu, hsu⟩]
  rw [hq]
  dsimp only
  unfold sendRetryMessage
  simp only [jsAdd1]
  dsimp only [Option.map]
  constructor
  · intro hlt
    have hge : jsGE (some (k + 1)) env.maxRetries = false := by
      simp only [jsGE, decide_eq_false_iff_not, not_le]
      exact hlt
    rw [hge]
    simp only [Bool.false_eq_true, if_false]
    cases hsend : env.sqsSend
        { queueUrl := q, challengeId := c, submissionId := s,
          scorerType := (tm.lookup "ScorerType").getD "unknown",
          retryCount := some (k + 1), attrRetryCount := jsNumToString (some (k + 1)),
          attrScorerType := (tm.lookup "ScorerType").getD "unknown" } with
    | ok v => exact ⟨_, rfl, rfl, rfl, rfl, rfl⟩
    | error e => exact ⟨_, rfl, rfl, rfl, rfl, rfl⟩
  · intro hge
    have hge' : jsGE (some (k + 1)) env.maxRetries = true := by
      simp only [jsGE, decide_eq_true_eq]
      exact hge
    rw [hge']
    rfl

/-- Witness for C1: on the failed-task fixture at retry count 0 (budget 3)
exactly one envelope with retry count 1 is queued; at retry count 2 no
envelope is queued. -/
theorem completion_retry_monotone_witness :
    (∃ m, (completionHandler compEnv (eventFailR "0")).2 = [m] ∧
      m.queueUrl = "https://sqs/queue-2" ∧ m.retryCount = some 1 ∧
      m.challengeId = uuid2 ∧ m.submissionId = uuid1) ∧
    (completionHandler compEnv (eventFailR "2")).2 = [] := by
  constructor
  · exact (completion_retry_monotone compEnv (eventFailR "0") (detailFailR "0")
      _ uuid2 uuid1 "https://sqs/queue-2" 0 rfl rfl rfl (by decide) rfl
      (by decide) rfl rfl rfl).1 (by decide)
  · exact (completion_retry_monotone compEnv (eventFailR "2") (detailFailR "2")
      _ uuid2 uuid1 "https://sqs/queue-2" 2 rfl rfl rfl (by decide) rfl
      (by decide) rfl rfl rfl).2 (by decide)

/-- The try block of the completion handler only ever returns 200
responses. -/
theorem completionBody_ok_status (env : CompletionEnv) (event : CompletionEvent)
    (p : CompletionResponse × List RetryMessage)
    (hb : completionBody env event = .ok p) : p.1.statusCode = 200 := by
  unfold completionBody at hb
  dsimp only at hb
  cases h : extractTags (event.detail.getD ⟨none, none⟩).tags with
  | error e => rw [h] at hb; dsimp only at hb; cases hb
  | ok tm =>
    rw [h] at hb
    dsimp only at hb
    injection hb with h2
    rw [← h2]

/-- C10: the completion handler is a total function of the event — it never
propagates an exception: it returns a response with status code 200 or
500, and whenever the try-block body throws, the error is converted into
the fixed 500 response (with no retry envelope issued). -/
theorem completion_handler_never_throws (env : CompletionEnv)
    (event : CompletionEvent) :
    ((completionHandler env event).1.statusCode = 200 ∨
      (completionHandler env event).1.statusCode = 500) ∧
    (∀ e, completionBody env event = .error e →
      completionHandler env event =
        ({ statusCode := 500, success := none, challengeId := none,
           submissionId := none, retryQueued := none }, [])) := by
  constructor
  · unfold completionHandler
    cases hb : completionBody env event with
    | error e => right; rfl
    | ok p =>
      left
      dsimp only
      exact completionBody_ok_status env event p hb
  · intro e hb
    unfold completionHandler
    rw [hb]

/-- Witness for C10: the event whose tag array holds a `null` element makes
the body throw, and the handler converts this into the 500 response. -/
theorem completion_handler_never_throws_witness :
    completionHandler compEnv eventNullTag =
      ({ statusCode := 500, success := none, challengeId := none,
         submissionId := none, retryQueued := none }, []) :=
  (completion_handler_never_throws compEnv eventNullTag).2 "TypeError" rfl

end MatchScorer
